import Mathlib

/-!
Verification of the gvm-led-controller device session manager.

This file embeds the state-diffing dispatcher (`write_state`,
`write_state_no_cmp` from `src/bluetooth.rs`), the default settings
snapshots (`src/gui.rs` and `src/main.rs`), the scanner discovery loop
(`scan_forever` from `src/bluetooth.rs`, with its I/O outcomes abstracted
into an environment), and the two `find_characteristic` variants, and
proves the stated properties of each.
-/

/-- `LightMode` from `src/gui.rs` (and the identical enum in `src/main.rs`). -/
inductive LightMode where
  | Hsi
  | Cct
deriving DecidableEq

/-- `LightSettingsState` from `src/gui.rs` lines 19-34: the declarative
target state for one device.  The `u8` fields are modelled as `Nat`; the
dispatcher only ever compares them for equality, so no overflow arithmetic
is involved. -/
structure LightSettingsState where
  hue : Nat
  intensity : Nat
  saturation : Nat
  temperature : Nat
  mode : LightMode
  enabled : Bool
deriving DecidableEq

/-- `LightSettingsState::default` from `src/gui.rs` lines 36-47
(the variant with `intensity = 10`). -/
def LightSettingsState.defaultGui : LightSettingsState :=
  { hue := 0, intensity := 10, saturation := 100, temperature := 32,
    mode := LightMode.Cct, enabled := true }

/-- `LightSettingsState::default` from `src/main.rs` lines 164-175
(the variant with `intensity = 50`). -/
def LightSettingsState.defaultMain : LightSettingsState :=
  { hue := 0, intensity := 50, saturation := 100, temperature := 0,
    mode := LightMode.Cct, enabled := true }

/-- A snapshot is valid when every field lies in the domain of spec section 3:
hue in [0, 83), saturation in [0, 100], intensity in [0, 100],
temperature in [0, 24]. -/
def Valid (s : LightSettingsState) : Prop :=
  s.hue < 83 ∧ s.saturation ≤ 100 ∧ s.intensity ≤ 100 ∧ s.temperature ≤ 24

instance (s : LightSettingsState) : Decidable (Valid s) := by
  unfold Valid
  infer_instance

/-- The logical commands of `src/protocol.rs` as used by the dispatcher:
`PowerCommand::{On, Off}` (modelled as `Power true` / `Power false`),
`HsiCommand::{Hue, Saturation, Intensity}`, `ColorTemperatureCommand`,
and `ModeCommand::{Hsi, Cct}` (modelled as `Mode`). -/
inductive Command where
  | Power (isOn : Bool)
  | Hue (value : Nat)
  | Saturation (value : Nat)
  | Intensity (value : Nat)
  | ColorTemperature (value : Nat)
  | Mode (mode : LightMode)
deriving DecidableEq

/-- The power command of `write_state` (`src/bluetooth.rs` lines 295-303):
emitted first, iff `state.enabled != previous_state.enabled`. -/
def powerPart (state previous : LightSettingsState) : List Command :=
  if state.enabled ≠ previous.enabled then [Command.Power state.enabled] else []

/-- The scalar commands of `write_state` (`src/bluetooth.rs` lines 305-330),
branch on `state.mode`: in the `Hsi` branch hue, saturation, intensity in
that order, each iff it differs from `previous_state`; in the `Cct` branch
temperature then intensity, each iff it differs. -/
def scalarPart (state previous : LightSettingsState) : List Command :=
  match state.mode with
  | LightMode.Hsi =>
      (if state.hue ≠ previous.hue then [Command.Hue state.hue] else []) ++
      (if state.saturation ≠ previous.saturation
        then [Command.Saturation state.saturation] else []) ++
      (if state.intensity ≠ previous.intensity
        then [Command.Intensity state.intensity] else [])
  | LightMode.Cct =>
      (if state.temperature ≠ previous.temperature
        then [Command.ColorTemperature state.temperature] else []) ++
      (if state.intensity ≠ previous.intensity
        then [Command.Intensity state.intensity] else [])

/-- The trailing mode command of `write_state`: each branch of the match on
`state.mode` ends with `ModeCommand::Hsi` resp. `ModeCommand::Cct` — i.e.
`Mode state.mode` — iff `state.mode != previous_state.mode`
(`src/bluetooth.rs` lines 316-318 and 327-329). -/
def modePart (state previous : LightSettingsState) : List Command :=
  if state.mode ≠ previous.mode then [Command.Mode state.mode] else []

/-- `write_state` from `src/bluetooth.rs` lines 290-334, as the ordered list
of commands written: the optional power command, then the mode branch's
scalar commands, then the optional mode command.  The mode command is
`Mode state.mode` because the match selects the branch by `state.mode`. -/
def write_state (state previous : LightSettingsState) : List Command :=
  powerPart state previous ++ scalarPart state previous ++ modePart state previous

/-- `write_state_no_cmp` from `src/bluetooth.rs` lines 263-286: the
unconditional full write used at session construction — power command,
then the `state.mode` branch's scalar commands, then the mode command. -/
def write_state_no_cmp (state : LightSettingsState) : List Command :=
  Command.Power state.enabled ::
  match state.mode with
  | LightMode.Hsi =>
      [Command.Hue state.hue, Command.Saturation state.saturation,
       Command.Intensity state.intensity, Command.Mode LightMode.Hsi]
  | LightMode.Cct =>
      [Command.ColorTemperature state.temperature,
       Command.Intensity state.intensity, Command.Mode LightMode.Cct]

/-- The settings-update arm of `Led::connection`'s event loop
(`src/bluetooth.rs` lines 229-238): each received snapshot is diffed
against the last-applied one via `write_state`, and then becomes the
last-applied snapshot. -/
def diff_run (previous : LightSettingsState) :
    List LightSettingsState → List Command
  | [] => []
  | s :: rest => write_state s previous ++ diff_run s rest

/-- The command trace of `Led::connection` (`src/bluetooth.rs` lines
212-260) over a finite list of received settings updates: on construction
`previous_state` is `LightSettingsState::default()` and is written out in
full with `write_state_no_cmp` before the event loop; then each update is
diffed against the previous one. -/
def connection_writes (updates : List LightSettingsState) : List Command :=
  write_state_no_cmp LightSettingsState.defaultGui ++
  diff_run LightSettingsState.defaultGui updates

/-- C1: for every valid snapshot `s`, diffing `s` against itself emits no
commands at all. -/
theorem diff_idempotent (s : LightSettingsState) (h : Valid s) :
    write_state s s = [] := by
  cases hm : s.mode <;>
    simp [write_state, powerPart, scalarPart, modePart, hm]

theorem diff_idempotent_witness :
    Valid LightSettingsState.defaultMain ∧
      write_state LightSettingsState.defaultMain LightSettingsState.defaultMain
        = [] :=
  ⟨by decide, diff_idempotent LightSettingsState.defaultMain (by decide)⟩

/-- A `Mode` command never occurs among the power command of a diff. -/
theorem mode_not_mem_powerPart (s p : LightSettingsState) (m : LightMode) :
    Command.Mode m ∉ powerPart s p := by
  unfold powerPart
  split <;> simp

/-- A `Mode` command never occurs among the scalar commands of a diff. -/
theorem mode_not_mem_scalarPart (s p : LightSettingsState) (m : LightMode) :
    Command.Mode m ∉ scalarPart s p := by
  unfold scalarPart
  cases s.mode <;> (split <;> split) <;> simp

/-- C2: for all valid snapshots, whenever the diff contains a `Mode` command,
that command is the last element of the emitted sequence. -/
theorem mode_switch_last (s p : LightSettingsState) (hs : Valid s)
    (hp : Valid p) (m : LightMode)
    (hm : Command.Mode m ∈ write_state s p) :
    (write_state s p).getLast? = some (Command.Mode m) := by
  have hpow := mode_not_mem_powerPart s p m
  have hsc := mode_not_mem_scalarPart s p m
  unfold write_state at hm ⊢
  rcases List.mem_append.mp hm with hm' | hmode
  · rcases List.mem_append.mp hm' with h1 | h2
    · exact absurd h1 hpow
    · exact absurd h2 hsc
  · unfold modePart at hmode ⊢
    split at hmode
    · simp only [List.mem_singleton] at hmode
      rw [hmode]
      split
      · exact List.getLast?_concat _
      · simp_all
    · simp at hmode

theorem mode_switch_last_witness :
    Valid { hue := 0, intensity := 10, saturation := 100, temperature := 0,
            mode := LightMode.Hsi, enabled := true } ∧
    Valid LightSettingsState.defaultMain ∧
    Command.Mode LightMode.Hsi ∈
      write_state
        { hue := 0, intensity := 10, saturation := 100, temperature := 0,
          mode := LightMode.Hsi, enabled := true }
        LightSettingsState.defaultMain ∧
    (write_state
        { hue := 0, intensity := 10, saturation := 100, temperature := 0,
          mode := LightMode.Hsi, enabled := true }
        LightSettingsState.defaultMain).getLast?
      = some (Command.Mode LightMode.Hsi) :=
  ⟨by decide, by decide, by decide,
    mode_switch_last _ _ (by decide) (by decide) LightMode.Hsi (by decide)⟩

/-- C3: for all valid snapshots, the diff never emits a command for a field
that is equal in `previous` and `next`: no `Power` command when `enabled`
is unchanged, no `Hue` / `Saturation` / `Intensity` command when that
scalar is unchanged, no `ColorTemperature` command when `temperature` is
unchanged, and no `Mode` command when `mode` is unchanged. -/
theorem field_level_minimality (s p : LightSettingsState) (hs : Valid s)
    (hp : Valid p) :
    (s.enabled = p.enabled → ∀ b, Command.Power b ∉ write_state s p) ∧
    (s.hue = p.hue → ∀ v, Command.Hue v ∉ write_state s p) ∧
    (s.saturation = p.saturation →
      ∀ v, Command.Saturation v ∉ write_state s p) ∧
    (s.intensity = p.intensity → ∀ v, Command.Intensity v ∉ write_state s p) ∧
    (s.temperature = p.temperature →
      ∀ v, Command.ColorTemperature v ∉ write_state s p) ∧
    (s.mode = p.mode → ∀ m, Command.Mode m ∉ write_state s p) := by
  unfold write_state powerPart scalarPart modePart
  refine ⟨?_, ?_, ?_, ?_, ?_, ?_⟩ <;>
    (intro h v; cases hm : s.mode) <;>
    simp only [hm] <;> split_ifs <;> simp_all

theorem field_level_minimality_witness :
    Valid LightSettingsState.defaultMain ∧
    Command.Power true ∉
      write_state LightSettingsState.defaultMain
        LightSettingsState.defaultMain ∧
    Command.Hue 0 ∉
      write_state LightSettingsState.defaultMain
        LightSettingsState.defaultMain ∧
    Command.Saturation 100 ∉
      write_state LightSettingsState.defaultMain
        LightSettingsState.defaultMain ∧
    Command.Intensity 50 ∉
      write_state LightSettingsState.defaultMain
        LightSettingsState.defaultMain ∧
    Command.ColorTemperature 0 ∉
      write_state LightSettingsState.defaultMain
        LightSettingsState.defaultMain ∧
    Command.Mode LightMode.Cct ∉
      write_state LightSettingsState.defaultMain
        LightSettingsState.defaultMain :=
  have h := field_level_minimality LightSettingsState.defaultMain
    LightSettingsState.defaultMain (by decide) (by decide)
  ⟨by decide, h.1 rfl true, h.2.1 rfl 0, h.2.2.1 rfl 100,
    h.2.2.2.1 rfl 50, h.2.2.2.2.1 rfl 0, h.2.2.2.2.2 rfl LightMode.Cct⟩

/-- The concrete `previous` snapshot of the disable scenario:
enabled, Cct mode, temperature 5. -/
def disablePrev : LightSettingsState :=
  { hue := 0, intensity := 10, saturation := 100, temperature := 5,
    mode := LightMode.Cct, enabled := true }

/-- The concrete `next` snapshot of the disable scenario:
disabled, Cct mode, temperature 9, other fields as in `disablePrev`. -/
def disableNext : LightSettingsState :=
  { hue := 0, intensity := 10, saturation := 100, temperature := 9,
    mode := LightMode.Cct, enabled := false }

/-- C4: disabling does not suppress other field updates.  Concretely,
`diff(disablePrev, disableNext)` contains both `Power false` and
`ColorTemperature 9`; in general, a changed temperature (Cct mode) or a
changed hue (Hsi mode) is still emitted when `next.enabled` is false. -/
theorem disable_does_not_suppress :
    (Command.Power false ∈ write_state disableNext disablePrev ∧
     Command.ColorTemperature 9 ∈ write_state disableNext disablePrev) ∧
    (∀ s p : LightSettingsState, s.enabled = false → s.mode = LightMode.Cct →
      s.temperature ≠ p.temperature →
      Command.ColorTemperature s.temperature ∈ write_state s p) ∧
    (∀ s p : LightSettingsState, s.enabled = false → s.mode = LightMode.Hsi →
      s.hue ≠ p.hue → Command.Hue s.hue ∈ write_state s p) := by
  refine ⟨by decide, ?_, ?_⟩
  · intro s p _ hmode htemp
    simp [write_state, scalarPart, hmode, htemp]
  · intro s p _ hmode hhue
    simp [write_state, scalarPart, hmode, hhue]

theorem disable_does_not_suppress_witness :
    Command.ColorTemperature 9 ∈ write_state disableNext disablePrev :=
  disable_does_not_suppress.2.1 disableNext disablePrev rfl rfl (by decide)

/-- C8: on session construction the full current snapshot (the default) is
written without diffing, before any update is processed, and the
unconditional write is ordered: power command first, then the
mode-specific scalar commands (hue, saturation, intensity for Hsi;
temperature, intensity for Cct), then the mode command last. -/
theorem initial_unconditional_write (s : LightSettingsState)
    (updates : List LightSettingsState) :
    connection_writes updates
      = write_state_no_cmp LightSettingsState.defaultGui ++
        diff_run LightSettingsState.defaultGui updates ∧
    write_state_no_cmp s
      = Command.Power s.enabled ::
        ((match s.mode with
          | LightMode.Hsi =>
              [Command.Hue s.hue, Command.Saturation s.saturation,
               Command.Intensity s.intensity]
          | LightMode.Cct =>
              [Command.ColorTemperature s.temperature,
               Command.Intensity s.intensity]) ++ [Command.Mode s.mode]) ∧
    (write_state_no_cmp s).getLast? = some (Command.Mode s.mode) := by
  refine ⟨rfl, ?_, ?_⟩ <;>
    (cases hm : s.mode <;> simp [write_state_no_cmp, hm])

/-- The starting snapshot of the hue-absorption scenario: the gui-variant
default (Cct mode, hue 0). -/
def huePrev : LightSettingsState := LightSettingsState.defaultGui

/-- First update: hue changed to 40 while the mode is still Cct. -/
def hueMid : LightSettingsState := { huePrev with hue := 40 }

/-- Second update: switch to Hsi mode, keeping hue 40. -/
def hueNext : LightSettingsState := { hueMid with mode := LightMode.Hsi }

/-- C9: the Cct branch of the diff never emits `Hue` or `Saturation`
commands, so a hue change made while `next.mode = Cct` is silently
absorbed into the last-applied snapshot; after the two successive updates
`hueMid` (hue 40, mode Cct) then `hueNext` (mode Hsi, hue kept at 40),
the whole command trace is just `[Mode Hsi]` and no `Hue` command was
ever written for the new value. -/
theorem hue_absorbed_in_cct :
    (∀ (n p : LightSettingsState) (v : Nat),
      Command.Hue v ∉ write_state { n with mode := LightMode.Cct } p ∧
      Command.Saturation v ∉ write_state { n with mode := LightMode.Cct } p) ∧
    diff_run huePrev [hueMid, hueNext] = [Command.Mode LightMode.Hsi] ∧
    (∀ v : Nat, Command.Hue v ∉ diff_run huePrev [hueMid, hueNext]) := by
  refine ⟨?_, by decide, ?_⟩
  · intro n p v
    constructor <;>
      (unfold write_state powerPart scalarPart modePart;
       split_ifs <;> simp)
  · intro v
    simp [show diff_run huePrev [hueMid, hueNext]
            = [Command.Mode LightMode.Hsi] by decide]

/-- C6 counterexample: in the gui variant (the one whose default intensity
is 10), the default temperature is 32, not 0 — refuting the claim that the
default snapshot has `temperature = 0` in every variant. -/
theorem default_temperature_not_zero :
    LightSettingsState.defaultGui.intensity = 10 ∧
    LightSettingsState.defaultGui.temperature = 32 ∧
    ¬ LightSettingsState.defaultGui.temperature = 0 := by
  decide

/-- C6 (amended): the main.rs default snapshot has enabled = true,
mode = Cct, intensity = 50, hue = 0, saturation = 100, temperature = 0;
the gui.rs variant has enabled = true, mode = Cct, intensity = 10,
hue = 0, saturation = 100, and temperature = 32. -/
theorem default_snapshot_values :
    (LightSettingsState.defaultMain.enabled = true ∧
     LightSettingsState.defaultMain.mode = LightMode.Cct ∧
     LightSettingsState.defaultMain.intensity = 50 ∧
     LightSettingsState.defaultMain.hue = 0 ∧
     LightSettingsState.defaultMain.saturation = 100 ∧
     LightSettingsState.defaultMain.temperature = 0) ∧
    (LightSettingsState.defaultGui.enabled = true ∧
     LightSettingsState.defaultGui.mode = LightMode.Cct ∧
     LightSettingsState.defaultGui.intensity = 10 ∧
     LightSettingsState.defaultGui.hue = 0 ∧
     LightSettingsState.defaultGui.saturation = 100 ∧
     LightSettingsState.defaultGui.temperature = 32) := by
  decide

/-- The I/O environment of `scan_forever` (`src/bluetooth.rs` lines
372-414), abstracted: peripherals are identified by their transport id
(a `Nat`); `connectOk id` tells whether `peripheral.connect()` succeeds,
`charOk id` whether `find_characteristic` succeeds, and `rounds` is the
finite prefix of poll rounds observed, each round being the list of
`BT_LED`-named peripherals `find_leds` returns. -/
structure ScanEnv where
  connectOk : Nat → Bool
  charOk : Nat → Bool
  rounds : List (List Nat)

/-- The observable outcome of a scanner run: the final seen
(`connected`) set, the ids on which a connect was attempted, the ids
yielded as ready `Led` handles, and whether the generator was aborted by
a propagated error (the `?` operator on `connect` or
`find_characteristic` returns out of the whole `stream!` block). -/
structure ScanResult where
  seen : List Nat
  attempts : List Nat
  yields : List Nat
  aborted : Bool
deriving DecidableEq

/-- The body of the `for peripheral in leds` loop of `scan_forever`
(`src/bluetooth.rs` lines 389-409): skip ids already in the `connected`
set (`HashSet::insert` returning false), otherwise mark seen and attempt
`connect` and then `find_characteristic`; either failure propagates via
`?`, aborting the whole generator, and a success yields the led. -/
def processRound (env : ScanEnv) (seen : List Nat) :
    List Nat → ScanResult
  | [] => { seen := seen, attempts := [], yields := [], aborted := false }
  | id :: rest =>
    if id ∈ seen then processRound env seen rest
    else if env.connectOk id then
      if env.charOk id then
        let r := processRound env (id :: seen) rest
        { seen := r.seen, attempts := id :: r.attempts,
          yields := id :: r.yields, aborted := r.aborted }
      else { seen := id :: seen, attempts := [id], yields := [], aborted := true }
    else { seen := id :: seen, attempts := [id], yields := [], aborted := true }

/-- The outer `loop` of `scan_forever` over the observed poll rounds: once
a round aborts (error propagated out of the generator), no further round
is processed. -/
def scanRun (env : ScanEnv) (seen : List Nat) :
    List (List Nat) → ScanResult
  | [] => { seen := seen, attempts := [], yields := [], aborted := false }
  | round :: rest =>
    let r := processRound env seen round
    if r.aborted then r
    else
      let r2 := scanRun env r.seen rest
      { seen := r2.seen, attempts := r.attempts ++ r2.attempts,
        yields := r.yields ++ r2.yields, aborted := r2.aborted }

/-- `scan_forever` starting from the empty `connected` set, observed over
the environment's poll rounds. -/
def scan_forever (env : ScanEnv) : ScanResult :=
  scanRun env [] env.rounds

/-- The C5 counterexample environment: device 1 fails to connect, device 2
would connect and resolve fine, and both are visible in the first round. -/
def scanFailEnv : ScanEnv :=
  { connectOk := fun id => id != 1, charOk := fun _ => true,
    rounds := [[1, 2]] }

/-- C5 counterexample: in `scanFailEnv`, device 2 is connectable and
resolvable and appears right after failing device 1, yet the scanner run
aborts at device 1 and never attempts or yields device 2 — refuting the
claim that a per-device resolution failure is local to that device's
attempt and that scanning continues with subsequent devices. -/
theorem scan_failure_not_local :
    scanFailEnv.connectOk 2 = true ∧ scanFailEnv.charOk 2 = true ∧
    (scan_forever scanFailEnv).aborted = true ∧
    (scan_forever scanFailEnv).yields = [] ∧
    (2 : Nat) ∉ (scan_forever scanFailEnv).attempts ∧
    (2 : Nat) ∉ (scan_forever scanFailEnv).yields := by
  decide

/-- C5 (amended): a connect or characteristic-resolution failure aborts
the entire scanning stream, not just that device's attempt: the failing
device ends its round immediately (no later device of the round is
attempted or yielded), and an aborted round ends the whole run (no later
round is processed). -/
theorem scan_resolution_failure_aborts (env : ScanEnv) (seen : List Nat)
    (id : Nat) (rest : List Nat) (round : List Nat)
    (rs : List (List Nat)) (hseen : id ∉ seen)
    (hfail : env.connectOk id = false ∨
      (env.connectOk id = true ∧ env.charOk id = false))
    (habort : (processRound env seen round).aborted = true) :
    processRound env seen (id :: rest)
      = { seen := id :: seen, attempts := [id], yields := [],
          aborted := true } ∧
    scanRun env seen (round :: rs) = processRound env seen round := by
  constructor
  · rcases hfail with hc | ⟨hc, hch⟩
    · simp [processRound, hseen, hc]
    · simp [processRound, hseen, hc, hch]
  · simp [scanRun, habort]

theorem scan_resolution_failure_aborts_witness :
    processRound scanFailEnv [] [1, 2]
      = { seen := [1], attempts := [1], yields := [], aborted := true } ∧
    scanRun scanFailEnv [] [[1, 2]] = processRound scanFailEnv [] [1, 2] :=
  scan_resolution_failure_aborts scanFailEnv [] 1 [2] [1, 2] []
    (by decide) (Or.inl (by decide)) (by decide)

/-- Invariants of one poll round: the attempted ids are distinct, none of
them was already seen, yielded ids are attempted ids, the seen set only
grows, and every attempted id ends up seen. -/
theorem processRound_inv (env : ScanEnv) (ids : List Nat)
    (seen : List Nat) :
    (processRound env seen ids).attempts.Nodup ∧
    (processRound env seen ids).yields.Nodup ∧
    (∀ a ∈ (processRound env seen ids).attempts, a ∉ seen) ∧
    (∀ a ∈ (processRound env seen ids).yields,
      a ∈ (processRound env seen ids).attempts) ∧
    (∀ x ∈ seen, x ∈ (processRound env seen ids).seen) ∧
    (∀ a ∈ (processRound env seen ids).attempts,
      a ∈ (processRound env seen ids).seen) := by
  induction ids generalizing seen with
  | nil => simp [processRound]
  | cons id rest ih =>
    by_cases hs : id ∈ seen
    · simpa [processRound, hs] using ih seen
    · by_cases hc : env.connectOk id
      · by_cases hch : env.charOk id
        · have h := ih (id :: seen)
          simp only [processRound, if_neg hs, if_pos hc, if_pos hch]
          obtain ⟨h1, hy, h2, h3, h4, h5⟩ := h
          refine ⟨?_, ?_, ?_, ?_, ?_, ?_⟩
          · simp only [List.nodup_cons]
            exact ⟨fun hmem => (h2 id hmem) (List.mem_cons_self id seen), h1⟩
          · simp only [List.nodup_cons]
            refine ⟨fun hmem => ?_, hy⟩
            exact (h2 id (h3 id hmem)) (List.mem_cons_self id seen)
          · intro a ha
            rcases List.mem_cons.mp ha with rfl | ha'
            · exact hs
            · intro hx
              exact h2 a ha' (List.mem_cons_of_mem id hx)
          · intro a ha
            rcases List.mem_cons.mp ha with rfl | ha'
            · exact List.mem_cons_self _ _
            · exact List.mem_cons_of_mem _ (h3 a ha')
          · intro x hx
            exact h4 x (List.mem_cons_of_mem id hx)
          · intro a ha
            rcases List.mem_cons.mp ha with rfl | ha'
            · exact h4 a (List.mem_cons_self a seen)
            · exact h5 a ha'
        · simp only [processRound, if_neg hs, if_pos hc, if_neg hch]
          refine ⟨by simp, by simp, ?_, by simp, ?_, ?_⟩
          · intro a ha
            simp only [List.mem_singleton] at ha
            subst ha
            exact hs
          · intro x hx
            exact List.mem_cons_of_mem id hx
          · intro a ha
            simp only [List.mem_singleton] at ha
            subst ha
            exact List.mem_cons_self _ _
      · simp only [processRound, if_neg hs, if_neg hc]
        refine ⟨by simp, by simp, ?_, by simp, ?_, ?_⟩
        · intro a ha
          simp only [List.mem_singleton] at ha
          subst ha
          exact hs
        · intro x hx
          exact List.mem_cons_of_mem id hx
        · intro a ha
          simp only [List.mem_singleton] at ha
          subst ha
          exact List.mem_cons_self _ _

/-- The round invariants extended over a whole scanner run. -/
theorem scanRun_inv (env : ScanEnv) (rounds : List (List Nat))
    (seen : List Nat) :
    (scanRun env seen rounds).attempts.Nodup ∧
    (scanRun env seen rounds).yields.Nodup ∧
    (∀ a ∈ (scanRun env seen rounds).attempts, a ∉ seen) ∧
    (∀ a ∈ (scanRun env seen rounds).yields,
      a ∈ (scanRun env seen rounds).attempts) ∧
    (∀ x ∈ seen, x ∈ (scanRun env seen rounds).seen) ∧
    (∀ a ∈ (scanRun env seen rounds).attempts,
      a ∈ (scanRun env seen rounds).seen) := by
  induction rounds generalizing seen with
  | nil => simp [scanRun]
  | cons round rest ih =>
    obtain ⟨p1, py, p2, p3, p4, p5⟩ := processRound_inv env round seen
    by_cases hab : (processRound env seen round).aborted
    · simpa [scanRun, hab] using ⟨p1, py, p2, p3, p4, p5⟩
    · have h := ih (processRound env seen round).seen
      obtain ⟨q1, qy, q2, q3, q4, q5⟩ := h
      simp only [scanRun, if_neg hab]
      refine ⟨?_, ?_, ?_, ?_, ?_, ?_⟩
      · refine List.Nodup.append p1 q1 ?_
        intro a hap haq
        exact q2 a haq (p5 a hap)
      · refine List.Nodup.append py qy ?_
        intro a hap haq
        exact q2 a (q3 a haq) (p5 a (p3 a hap))
      · intro a ha
        rcases List.mem_append.mp ha with hap | haq
        · exact p2 a hap
        · intro hx
          exact q2 a haq (p4 a hx)
      · intro a ha
        rcases List.mem_append.mp ha with hay | haq
        · exact List.mem_append.mpr (Or.inl (p3 a hay))
        · exact List.mem_append.mpr (Or.inr (q3 a haq))
      · intro x hx
        exact q4 x (p4 x hx)
      · intro a ha
        rcases List.mem_append.mp ha with hap | haq
        · exact q4 a (p5 a hap)
        · exact q5 a haq

/-- C7: discovery deduplicates by transport id — over any environment, a
given id is connect-attempted at most once and yields at most one ready
session handle, so re-advertisement of an already-connected device never
spawns a second session. -/
theorem scan_dedup (env : ScanEnv) (id : Nat) :
    (scan_forever env).attempts.count id ≤ 1 ∧
    (scan_forever env).yields.count id ≤ 1 := by
  obtain ⟨h1, hy, _, _, _, _⟩ := scanRun_inv env env.rounds []
  constructor
  · exact List.nodup_iff_count_le_one.mp h1 id
  · exact List.nodup_iff_count_le_one.mp hy id

/-- `SERVICE_UUID` from `src/bluetooth.rs` lines 25-27 and `src/main.rs`
lines 25-27: the 16 bytes of the fixed 128-bit GATT service identifier. -/
def SERVICE_UUID : List Nat :=
  [0x00, 0x01, 0x02, 0x03, 0x04, 0x05, 0x06, 0x07,
   0x08, 0x09, 0x0a, 0x0b, 0x0c, 0x0d, 0x19, 0x10]

/-- A GATT service as `find_characteristic` inspects it: its UUID bytes
and its characteristics, the latter abstracted to opaque `Nat` ids in
iteration order. -/
structure GattService where
  uuid : List Nat
  characteristics : List Nat
deriving DecidableEq

/-- Outcome of a characteristic lookup: a characteristic, an error value
(`eyre` error / `bail!`), or a panic (`Option::unwrap` on `None`). -/
inductive FindOutcome where
  | ok (c : Nat)
  | errNoService
  | errNoCharacteristic
  | panicked
deriving DecidableEq

/-- `find_characteristic` from `src/bluetooth.rs` lines 337-349: at the
first service whose UUID matches `SERVICE_UUID`, take characteristic
index 0; a missing characteristic becomes an error value via
`ok_or_else`, and a missing service is a `bail!` error. -/
def find_characteristic : List GattService → FindOutcome
  | [] => FindOutcome.errNoService
  | s :: rest =>
    if s.uuid = SERVICE_UUID then
      match s.characteristics[0]? with
      | some c => FindOutcome.ok c
      | none => FindOutcome.errNoCharacteristic
    else find_characteristic rest

/-- `find_characteristic` from `src/main.rs` lines 327-338: at the first
service whose UUID matches `SERVICE_UUID`, take characteristic index 1
with `.unwrap()` — a panic when the service has fewer than two
characteristics; a missing service is a `bail!` error. -/
def main_find_characteristic : List GattService → FindOutcome
  | [] => FindOutcome.errNoService
  | s :: rest =>
    if s.uuid = SERVICE_UUID then
      match s.characteristics[1]? with
      | some c => FindOutcome.ok c
      | none => FindOutcome.panicked
    else main_find_characteristic rest

/-- C10: the main.rs variant panics whenever the (first) service matching
the target UUID exposes fewer than two characteristics, while the
bluetooth.rs variant takes index 0 and surfaces an empty characteristic
list as an error value — it can never panic on any input. -/
theorem find_characteristic_variants
    (pre post : List GattService) (s : GattService)
    (hpre : ∀ t ∈ pre, t.uuid ≠ SERVICE_UUID)
    (hs : s.uuid = SERVICE_UUID) :
    (s.characteristics.length < 2 →
      main_find_characteristic (pre ++ s :: post) = FindOutcome.panicked) ∧
    (s.characteristics = [] →
      find_characteristic (pre ++ s :: post)
        = FindOutcome.errNoCharacteristic) ∧
    (∀ services : List GattService,
      find_characteristic services ≠ FindOutcome.panicked) := by
  refine ⟨?_, ?_, ?_⟩
  · intro hlen
    have hnone : s.characteristics[1]? = none :=
      List.getElem?_eq_none (by omega)
    induction pre with
    | nil => simp [main_find_characteristic, hs, hnone]
    | cons t ts ih =>
      have ht : t.uuid ≠ SERVICE_UUID := hpre t (List.mem_cons_self t ts)
      simp only [List.cons_append, main_find_characteristic, if_neg ht]
      exact ih (fun u hu => hpre u (List.mem_cons_of_mem t hu))
  · intro hnil
    have hnone : s.characteristics[0]? = none := by
      simp [hnil]
    induction pre with
    | nil => simp [find_characteristic, hs, hnone]
    | cons t ts ih =>
      have ht : t.uuid ≠ SERVICE_UUID := hpre t (List.mem_cons_self t ts)
      simp only [List.cons_append, find_characteristic, if_neg ht]
      exact ih (fun u hu => hpre u (List.mem_cons_of_mem t hu))
  · intro services
    induction services with
    | nil => simp [find_characteristic]
    | cons t ts ih =>
      by_cases ht : t.uuid = SERVICE_UUID
      · simp only [find_characteristic, if_pos ht]
        cases t.characteristics[0]? <;> simp
      · simpa [find_characteristic, if_neg ht] using ih

theorem find_characteristic_variants_witness :
    main_find_characteristic
        [{ uuid := [1], characteristics := [5, 6] },
         { uuid := SERVICE_UUID, characteristics := [7] }]
      = FindOutcome.panicked ∧
    find_characteristic
        [{ uuid := [1], characteristics := [5, 6] },
         { uuid := SERVICE_UUID, characteristics := [] }]
      = FindOutcome.errNoCharacteristic ∧
    find_characteristic [] ≠ FindOutcome.panicked :=
  have h1 := find_characteristic_variants
    [{ uuid := [1], characteristics := [5, 6] }] []
    { uuid := SERVICE_UUID, characteristics := [7] }
    (by decide) rfl
  have h2 := find_characteristic_variants
    [{ uuid := [1], characteristics := [5, 6] }] []
    { uuid := SERVICE_UUID, characteristics := [] }
    (by decide) rfl
  ⟨h1.1 (by decide), h2.2.1 rfl, h2.2.2 []⟩
